/-
Verification of the REST API wrapper for the hallucination-risk service
(`api/rest_api.py`).  The wrapper is embedded shallowly: JSON values are an
inductive type, Python's `int()` / `float()` conversions are modelled as
fallible functions, `validate_settings` follows the source line by line, and
the `evaluate_prompt` request handler is a function of the request data plus
oracles standing for the external backend / planner / certificate calls
(`planner.run`, `generate_answer_if_allowed`, `aggregate` +
`make_sla_certificate` live in `scripts/hallucination_toolkit`, outside the
repository's sources; their outcomes are passed in as `Except` parameters).
Python floats are modelled as exact rationals.
-/

import Mathlib

namespace RestApi

/-- A JSON scalar value as produced by Flask's `request.get_json()`:
numbers (ints and floats collapsed into `ℚ`), strings, booleans, null. -/
inductive JVal where
  | num (q : ℚ)
  | str (s : String)
  | bool (b : Bool)
  | null
  deriving DecidableEq, Repr

/-- A Python exception: its class name and its message (`str(e)` and
`type(e).__name__`, the two fields the generic handler at lines 271-282
surfaces). -/
structure ExnInfo where
  ty : String
  msg : String
  deriving DecidableEq, Repr

/-- Python truthiness of a JSON value (`if settings["generate_answer"]:`). -/
def truthy : JVal → Bool
  | .num q => decide (q ≠ 0)
  | .str s => decide (s ≠ "")
  | .bool b => b
  | .null => false

/-- Python `x or y` on strings: `y` when `x` is falsy (empty). -/
def pyOr (a b : String) : String :=
  if a = "" then b else a

/-- Characters Python's `str.strip()` removes by default. -/
def pyWs (c : Char) : Bool :=
  c = ' ' || c = '\t' || c = '\n' || c = '\r' || c = '\x0b' || c = '\x0c'

/-- Python `str.strip()`: drop leading and trailing whitespace. -/
def pyStrip (s : String) : String :=
  String.mk (((s.toList.dropWhile pyWs).reverse.dropWhile pyWs).reverse)

/-- Truncation toward zero, the behaviour of Python `int()` on a float. -/
def pyTrunc (q : ℚ) : ℤ :=
  Int.tdiv q.num (q.den : ℤ)

/-- Value of a nonempty all-digit character list, `none` otherwise. -/
def digitsVal (cs : List Char) : Option ℕ :=
  if cs = [] then none
  else cs.foldl
    (fun acc c => acc.bind (fun n => if c.isDigit then some (10 * n + (c.toNat - 48)) else none))
    (some 0)

/-- A Python base-10 integer literal: optional sign, then digits. -/
def parseIntLit (s : String) : Option ℤ :=
  match s.toList with
  | '-' :: rest => (digitsVal rest).map (fun n => -(n : ℤ))
  | '+' :: rest => (digitsVal rest).map (fun n => (n : ℤ))
  | cs => (digitsVal cs).map (fun n => (n : ℤ))

/-- A Python float literal restricted to plain decimal notation:
optional sign, digits, optional fractional part (at least one digit overall). -/
def parseFloatLit (s : String) : Option ℚ :=
  let signed : Bool × List Char :=
    match s.toList with
    | '-' :: r => (true, r)
    | '+' :: r => (false, r)
    | r => (false, r)
  let withSign : ℚ → ℚ := fun q => if signed.1 then -q else q
  match (String.mk signed.2).splitOn "." with
  | [w] => (digitsVal w.toList).map (fun n => withSign (n : ℚ))
  | [w, f] =>
    if w = "" && f = "" then none
    else
      match (if w = "" then some 0 else digitsVal w.toList),
            (if f = "" then some 0 else digitsVal f.toList) with
      | some a, some b => some (withSign ((a : ℚ) + (b : ℚ) / ((10 : ℚ) ^ f.length)))
      | _, _ => none
  | _ => none

/-- Python `int(v)` on a JSON value: floats truncate toward zero, booleans
become 0/1, strings must be integer literals (else `ValueError`), `None`
raises `TypeError`. -/
def pyIntOf : JVal → Except ExnInfo ℤ
  | .num q => .ok (pyTrunc q)
  | .bool b => .ok (if b then 1 else 0)
  | .str s =>
    match parseIntLit s with
    | some n => .ok n
    | none => .error ⟨"ValueError", "invalid literal for int() with base 10: '" ++ s ++ "'"⟩
  | .null => .error ⟨"TypeError",
      "int() argument must be a string, a bytes-like object or a real number, not 'NoneType'"⟩

/-- Python `float(v)` on a JSON value. -/
def pyFloatOf : JVal → Except ExnInfo ℚ
  | .num q => .ok q
  | .bool b => .ok (if b then 1 else 0)
  | .str s =>
    match parseFloatLit s with
    | some q => .ok q
    | none => .error ⟨"ValueError", "could not convert string to float: '" ++ s ++ "'"⟩
  | .null => .error ⟨"TypeError",
      "float() argument must be a string or a real number, not 'NoneType'"⟩

/-- The `settings` object of a request body: each recognized key either
supplied (with an arbitrary JSON value) or absent. -/
structure SettingsInput where
  model : Option JVal := none
  n_samples : Option JVal := none
  m : Option JVal := none
  skeleton_policy : Option JVal := none
  temperature : Option JVal := none
  h_star : Option JVal := none
  isr_threshold : Option JVal := none
  margin_extra_bits : Option JVal := none
  B_clip : Option JVal := none
  clip_mode : Option JVal := none
  generate_answer : Option JVal := none
  verbosity : Option JVal := none
  reasoning_effort : Option JVal := none
  deriving DecidableEq, Repr

/-- `{}`: a request that supplies no settings overrides. -/
def SettingsInput.empty : SettingsInput := {}

/-- The settings dictionary after `DEFAULT_SETTINGS.copy()` plus update:
every recognized key holds a JSON value. -/
structure MergedSettings where
  model : JVal
  n_samples : JVal
  m : JVal
  skeleton_policy : JVal
  temperature : JVal
  h_star : JVal
  isr_threshold : JVal
  margin_extra_bits : JVal
  B_clip : JVal
  clip_mode : JVal
  generate_answer : JVal
  verbosity : JVal
  reasoning_effort : JVal
  deriving DecidableEq, Repr

/-- `DEFAULT_SETTINGS` (lines 62-77). -/
def DEFAULT_SETTINGS : MergedSettings where
  model := .str "gpt-4.1-mini"
  n_samples := .num 7
  m := .num 6
  skeleton_policy := .str "closed_book"
  temperature := .num (mkRat 3 10)
  h_star := .num (mkRat 1 20)
  isr_threshold := .num 1
  margin_extra_bits := .num (mkRat 1 5)
  B_clip := .num 12
  clip_mode := .str "one-sided"
  generate_answer := .bool false
  verbosity := .str "low"
  reasoning_effort := .str "minimal"

/-- `validated = DEFAULT_SETTINGS.copy(); validated.update(settings)`
(lines 82-83). -/
def mergeSettings (s : SettingsInput) : MergedSettings where
  model := s.model.getD DEFAULT_SETTINGS.model
  n_samples := s.n_samples.getD DEFAULT_SETTINGS.n_samples
  m := s.m.getD DEFAULT_SETTINGS.m
  skeleton_policy := s.skeleton_policy.getD DEFAULT_SETTINGS.skeleton_policy
  temperature := s.temperature.getD DEFAULT_SETTINGS.temperature
  h_star := s.h_star.getD DEFAULT_SETTINGS.h_star
  isr_threshold := s.isr_threshold.getD DEFAULT_SETTINGS.isr_threshold
  margin_extra_bits := s.margin_extra_bits.getD DEFAULT_SETTINGS.margin_extra_bits
  B_clip := s.B_clip.getD DEFAULT_SETTINGS.B_clip
  clip_mode := s.clip_mode.getD DEFAULT_SETTINGS.clip_mode
  generate_answer := s.generate_answer.getD DEFAULT_SETTINGS.generate_answer
  verbosity := s.verbosity.getD DEFAULT_SETTINGS.verbosity
  reasoning_effort := s.reasoning_effort.getD DEFAULT_SETTINGS.reasoning_effort

/-- The settings dictionary after `validate_settings` has run all its
conversions and clamps: numeric fields hold numbers, enum fields strings;
`model` and `generate_answer` pass through unvalidated. -/
structure ValidatedSettings where
  model : JVal
  n_samples : ℤ
  m : ℤ
  skeleton_policy : String
  temperature : ℚ
  h_star : ℚ
  isr_threshold : ℚ
  margin_extra_bits : ℚ
  B_clip : ℚ
  clip_mode : String
  generate_answer : JVal
  verbosity : String
  reasoning_effort : String
  deriving DecidableEq, Repr

/-- The enum pattern of lines 94-105: a string in `allowed` is kept, any
other value is replaced (Python `v not in [...]` is true for every
non-string as well). -/
def enumFix (allowed : List String) (dflt : String) : JVal → String
  | .str t => if t ∈ allowed then t else dflt
  | _ => dflt

/-- `validate_settings` (lines 80-107): merge with defaults, convert and
clamp each numeric field in source order (a failed `int()`/`float()`
conversion raises), replace unrecognized enum values by their defaults. -/
def validate_settings (s : SettingsInput) : Except ExnInfo ValidatedSettings :=
  match pyIntOf (mergeSettings s).n_samples with
  | .error e => .error e
  | .ok ns =>
  match pyIntOf (mergeSettings s).m with
  | .error e => .error e
  | .ok mm =>
  match pyFloatOf (mergeSettings s).temperature with
  | .error e => .error e
  | .ok temp =>
  match pyFloatOf (mergeSettings s).h_star with
  | .error e => .error e
  | .ok hs =>
  match pyFloatOf (mergeSettings s).isr_threshold with
  | .error e => .error e
  | .ok thr =>
  match pyFloatOf (mergeSettings s).margin_extra_bits with
  | .error e => .error e
  | .ok meb =>
  match pyFloatOf (mergeSettings s).B_clip with
  | .error e => .error e
  | .ok bc =>
    .ok
      { model := (mergeSettings s).model
        n_samples := max 1 (min ns 15)
        m := max 2 (min mm 12)
        temperature := max 0 (min temp 1)
        h_star := max (mkRat 1 1000) (min hs (mkRat 1 2))
        isr_threshold := max (mkRat 1 10) (min thr 5)
        margin_extra_bits := max 0 (min meb 5)
        B_clip := max 1 (min bc 50)
        skeleton_policy :=
          enumFix ["auto", "evidence_erase", "closed_book"] "closed_book" (mergeSettings s).skeleton_policy
        clip_mode := enumFix ["one-sided", "symmetric"] "one-sided" (mergeSettings s).clip_mode
        generate_answer := (mergeSettings s).generate_answer
        verbosity := enumFix ["low", "medium", "high"] "low" (mergeSettings s).verbosity
        reasoning_effort :=
          enumFix ["minimal", "low", "medium", "high"] "minimal" (mergeSettings s).reasoning_effort }

/-- The per-item `Metric` returned by `planner.run` (the fields the wrapper
reads at lines 228-237). -/
structure Metric where
  delta_bar : ℚ
  b2t : ℚ
  isr : ℚ
  roh_bound : ℚ
  q_conservative : ℚ
  q_avg : ℚ
  decision_answer : Bool
  rationale : String
  deriving DecidableEq, Repr

/-- The `metrics` object of the response (lines 231-238): exactly these six
fields. -/
structure MetricsOut where
  delta_bar : ℚ
  b2t : ℚ
  isr : ℚ
  roh_bound : ℚ
  q_conservative : ℚ
  q_avg : ℚ
  deriving DecidableEq, Repr

/-- The `sla_certificate` field: either the certificate data (`asdict(cert)`,
kept opaque as a JSON value) or the in-band error entry of line 263. -/
inductive SlaField where
  | cert (c : JVal)
  | certError (msg : String)
  deriving DecidableEq, Repr

/-- The `result` object being built (lines 227-263).  `answer` is `none` when
the key is never set; `sla_certificate` is `none` until lines 252-263 run. -/
structure EvalResult where
  decision : String
  decision_answer : Bool
  rationale : String
  metrics : MetricsOut
  answer : Option String
  sla_certificate : Option SlaField
  deriving DecidableEq, Repr

/-- The arguments of the `planner.run` call (lines 196-222): the item plus
the planner and run configuration. -/
structure RunArgs where
  prompt : String
  n_samples : ℤ
  m : ℤ
  skeleton_policy : String
  temperature : ℚ
  h_star : ℚ
  isr_threshold : ℚ
  margin_extra_bits : ℚ
  B_clip : ℚ
  clip_mode : String
  deriving DecidableEq, Repr

/-- The arguments of the certificate construction (lines 254-260):
`planner.aggregate` settings plus the `make_sla_certificate` call. -/
structure CertArgs where
  h_star : ℚ
  isr_threshold : ℚ
  margin_extra_bits : ℚ
  model_name : JVal
  confidence_1_minus_alpha : ℚ
  deriving DecidableEq, Repr

/-- The request body, as the handler reads it: the three keys it uses. -/
structure RequestData where
  prompt : Option String := none
  api_key : Option String := none
  settings : Option SettingsInput := none
  deriving DecidableEq, Repr

/-- The JSON envelope the handler returns, flattened to the fields the
claims mention. -/
structure HttpResponse where
  status : ℕ
  success : Bool
  error : Option String
  errType : Option String
  result : Option EvalResult
  settings_used : Option ValidatedSettings
  deriving DecidableEq, Repr

/-- Everything observable about one handler invocation: the HTTP response,
the arguments of the external calls that were issued (`none` when the call
was never reached), whether the answer-generation call was made, the key the
backend would read, and the `OPENAI_API_KEY` environment variable afterwards
("" meaning unset). -/
structure PipelineOut where
  response : HttpResponse
  runArgs : Option RunArgs
  genCalled : Bool
  certArgs : Option CertArgs
  keyUsed : Option String
  envAfter : String
  deriving DecidableEq, Repr

/-- The `NameError` actually raised on the early 400 paths: the dict literals
at lines 169-172, 176-179 and 184-187 write `"success": false` with the
undefined name `false` (Python's constant is `False`), so building the
intended 400 response raises `NameError: name 'false' is not defined`. -/
def nameErrorFalse : ExnInfo :=
  ⟨"NameError", "name 'false' is not defined"⟩

/-- The generic handler of lines 271-282: any exception becomes an HTTP 500
with the exception's text and class name. -/
def errorResponse (e : ExnInfo) : HttpResponse where
  status := 500
  success := false
  error := some e.msg
  errType := some e.ty
  result := none
  settings_used := none

/-- The 200 envelope of lines 265-269. -/
def successResponse (r : EvalResult) (settings : ValidatedSettings) : HttpResponse where
  status := 200
  success := true
  error := none
  errType := none
  result := some r
  settings_used := some settings

/-- Lines 227-239: the result object built from the computed `Metric`. -/
def buildResult (metric : Metric) : EvalResult where
  decision := if metric.decision_answer then "ANSWER" else "REFUSE"
  decision_answer := metric.decision_answer
  rationale := metric.rationale
  metrics :=
    { delta_bar := metric.delta_bar
      b2t := metric.b2t
      isr := metric.isr
      roh_bound := metric.roh_bound
      q_conservative := metric.q_conservative
      q_avg := metric.q_avg }
  answer := none
  sla_certificate := none

/-- Lines 242-250: the answer-generation step.  `gen` is the outcome of the
external `generate_answer_if_allowed` call (its returned text, `none` for
Python `None`, or the exception it raised); the boolean reports whether that
call was issued. -/
def answerStep (settings : ValidatedSettings) (metric : Metric)
    (gen : Except ExnInfo (Option String)) (r : EvalResult) : EvalResult × Bool :=
  if truthy settings.generate_answer then
    if metric.decision_answer then
      match gen with
      | .ok a =>
        let text : String :=
          match a with
          | some t => if t = "" then "No answer generated" else t
          | none => "No answer generated"
        ({ r with answer := some text }, true)
      | .error e =>
        ({ r with answer := some ("Error generating answer: " ++ e.msg) }, true)
    else
      ({ r with answer := some "Request refused - insufficient information confidence" }, false)
  else
    (r, false)

/-- Lines 252-263: the certificate step.  `cert` is the outcome of
`planner.aggregate` + `make_sla_certificate` + `asdict`. -/
def certStep (cert : Except ExnInfo JVal) (r : EvalResult) : EvalResult :=
  match cert with
  | .ok c => { r with sla_certificate := some (.cert c) }
  | .error e =>
    { r with sla_certificate := some (.certError ("Failed to generate certificate: " ++ e.msg)) }

/-- The arguments the wrapper passes to certificate construction
(lines 254-260): the run's settings and the literal confidence 0.95. -/
def certArgsOf (settings : ValidatedSettings) : CertArgs where
  h_star := settings.h_star
  isr_threshold := settings.isr_threshold
  margin_extra_bits := settings.margin_extra_bits
  model_name := settings.model
  confidence_1_minus_alpha := mkRat 95 100

/-- The arguments the wrapper passes to `planner.run` (lines 196-222). -/
def runArgsOf (prompt : String) (settings : ValidatedSettings) : RunArgs where
  prompt := prompt
  n_samples := settings.n_samples
  m := settings.m
  skeleton_policy := settings.skeleton_policy
  temperature := settings.temperature
  h_star := settings.h_star
  isr_threshold := settings.isr_threshold
  margin_extra_bits := settings.margin_extra_bits
  B_clip := settings.B_clip
  clip_mode := settings.clip_mode

/-- `POST /api/evaluate` (lines 120-282).  `env` is the process's
`OPENAI_API_KEY` variable on entry ("" = unset); `data` is the parsed body
(`none` when `request.get_json()` yields nothing truthy); `run`, `gen` and
`cert` are the outcomes of the three external calls.  Every exception any
step raises is caught by the handler of lines 271-282. -/
def evaluate_prompt (env : String) (data : Option RequestData)
    (run : Except ExnInfo Metric) (gen : Except ExnInfo (Option String))
    (cert : Except ExnInfo JVal) : PipelineOut :=
  match data with
  | none =>
    -- line 169: the 400 response's dict evaluates the undefined name `false`
    ⟨errorResponse nameErrorFalse, none, false, none, none, env⟩
  | some rd =>
    if pyStrip (rd.prompt.getD "") = "" then
      -- line 176: same undefined-name failure
      ⟨errorResponse nameErrorFalse, none, false, none, none, env⟩
    else
      if pyOr (rd.api_key.getD "") env = "" then
        -- line 184: same undefined-name failure
        ⟨errorResponse nameErrorFalse, none, false, none, none, env⟩
      else
        match validate_settings (rd.settings.getD SettingsInput.empty) with
        | .error e =>
          -- conversion failure inside validate_settings propagates (line 190)
          ⟨errorResponse e, none, false, none, none, env⟩
        | .ok settings =>
          -- line 193: the resolved key is written into the process environment
          match run with
          | .error e =>
            ⟨errorResponse e, some (runArgsOf (pyStrip (rd.prompt.getD "")) settings),
              false, none, some (pyOr (rd.api_key.getD "") env),
              pyOr (rd.api_key.getD "") env⟩
          | .ok metric =>
            let stepped := answerStep settings metric gen (buildResult metric)
            ⟨successResponse (certStep cert stepped.1) settings,
              some (runArgsOf (pyStrip (rd.prompt.getD "")) settings),
              stepped.2, some (certArgsOf settings),
              some (pyOr (rd.api_key.getD "") env),
              pyOr (rd.api_key.getD "") env⟩

/-- A sample `Metric` with `decision_answer = true` (an ANSWER outcome). -/
def metricA : Metric where
  delta_bar := mkRat 5 2
  b2t := mkRat 9 5
  isr := mkRat 25 18
  roh_bound := mkRat 23 1000
  q_conservative := mkRat 1 10
  q_avg := mkRat 3 20
  decision_answer := true
  rationale := "ISR above threshold"

/-- A sample `Metric` with `decision_answer = false` (a REFUSE outcome). -/
def metricR : Metric where
  delta_bar := mkRat 1 2
  b2t := mkRat 9 5
  isr := mkRat 5 18
  roh_bound := mkRat 1 2
  q_conservative := mkRat 1 10
  q_avg := mkRat 3 20
  decision_answer := false
  rationale := "ISR below threshold"

/-- A request that supplies a prompt and a key but no settings overrides. -/
def reqDefault : RequestData where
  prompt := some "Who won the 2019 Nobel Prize in Physics?"
  api_key := some "sk-test"
  settings := some SettingsInput.empty

/-- The settings produced by `validate_settings` when no overrides are
supplied: all of `DEFAULT_SETTINGS`, unchanged by the clamps. -/
def defaultValidated : ValidatedSettings where
  model := .str "gpt-4.1-mini"
  n_samples := 7
  m := 6
  skeleton_policy := "closed_book"
  temperature := mkRat 3 10
  h_star := mkRat 1 20
  isr_threshold := 1
  margin_extra_bits := mkRat 1 5
  B_clip := 12
  clip_mode := "one-sided"
  generate_answer := .bool false
  verbosity := "low"
  reasoning_effort := "minimal"

/-- Settings overrides that only turn `generate_answer` on. -/
def genSettings : SettingsInput := { generate_answer := some (.bool true) }

/-- `validate_settings genSettings`: the defaults with `generate_answer`
passed through as JSON `true`. -/
def genValidated : ValidatedSettings := { defaultValidated with generate_answer := .bool true }

/-- A request with `generate_answer` turned on. -/
def reqGen : RequestData where
  prompt := some "Q"
  api_key := some "sk-test"
  settings := some genSettings

/-- A request asking for `m = 1`, below the documented minimum. -/
def reqMOne : RequestData where
  prompt := some "Q"
  api_key := some "sk-test"
  settings := some { m := some (.num 1) }

/-- Settings whose `n_samples` is a non-numeric string. -/
def badSettings : SettingsInput := { n_samples := some (.str "abc") }

/-- Settings whose `n_samples` is JSON `null`. -/
def badSettingsNull : SettingsInput := { n_samples := some .null }

/-- A request carrying the non-convertible `n_samples`. -/
def reqBad : RequestData where
  prompt := some "Q"
  api_key := some "sk-test"
  settings := some badSettings

/-- A request that supplies its own API credential. -/
def reqWithKey : RequestData where
  prompt := some "Q"
  api_key := some "sk-from-A"
  settings := some SettingsInput.empty

/-- A request that supplies no API credential. -/
def reqNoKey : RequestData where
  prompt := some "Q"
  api_key := none
  settings := some SettingsInput.empty

theorem enumFix_mem (allowed : List String) (dflt : String) (j : JVal)
    (hd : dflt ∈ allowed) : enumFix allowed dflt j ∈ allowed := by
  cases j with
  | str t =>
    simp only [enumFix]
    split
    · assumption
    · exact hd
  | num q => exact hd
  | bool b => exact hd
  | null => exact hd

/-- C1: for every settings mapping accepted by `validate_settings`, the
returned mapping has every numeric setting clamped into its documented range
(`n_samples` in [1,15], `m` in [2,12], `temperature` in [0,1], `h_star` in
[0.001,0.5], `isr_threshold` in [0.1,5], `margin_extra_bits` in [0,5],
`B_clip` in [1,50]), every unrecognized enum value replaced by its safe
default, and every setting not supplied set to its default value. -/
theorem validate_settings_clamps (s : SettingsInput) (v : ValidatedSettings)
    (h : validate_settings s = .ok v) :
    (1 ≤ v.n_samples ∧ v.n_samples ≤ 15) ∧
    (2 ≤ v.m ∧ v.m ≤ 12) ∧
    (0 ≤ v.temperature ∧ v.temperature ≤ 1) ∧
    (mkRat 1 1000 ≤ v.h_star ∧ v.h_star ≤ mkRat 1 2) ∧
    (mkRat 1 10 ≤ v.isr_threshold ∧ v.isr_threshold ≤ 5) ∧
    (0 ≤ v.margin_extra_bits ∧ v.margin_extra_bits ≤ 5) ∧
    (1 ≤ v.B_clip ∧ v.B_clip ≤ 50) ∧
    v.skeleton_policy ∈ ["auto", "evidence_erase", "closed_book"] ∧
    v.clip_mode ∈ ["one-sided", "symmetric"] ∧
    v.verbosity ∈ ["low", "medium", "high"] ∧
    v.reasoning_effort ∈ ["minimal", "low", "medium", "high"] ∧
    (∀ t, s.skeleton_policy = some (.str t) → t ∉ ["auto", "evidence_erase", "closed_book"] →
      v.skeleton_policy = "closed_book") ∧
    (∀ t, s.clip_mode = some (.str t) → t ∉ ["one-sided", "symmetric"] →
      v.clip_mode = "one-sided") ∧
    (∀ t, s.verbosity = some (.str t) → t ∉ ["low", "medium", "high"] →
      v.verbosity = "low") ∧
    (∀ t, s.reasoning_effort = some (.str t) → t ∉ ["minimal", "low", "medium", "high"] →
      v.reasoning_effort = "minimal") ∧
    (s.n_samples = none → v.n_samples = 7) ∧
    (s.m = none → v.m = 6) ∧
    (s.temperature = none → v.temperature = mkRat 3 10) ∧
    (s.h_star = none → v.h_star = mkRat 1 20) ∧
    (s.isr_threshold = none → v.isr_threshold = 1) ∧
    (s.margin_extra_bits = none → v.margin_extra_bits = mkRat 1 5) ∧
    (s.B_clip = none → v.B_clip = 12) ∧
    (s.skeleton_policy = none → v.skeleton_policy = "closed_book") ∧
    (s.clip_mode = none → v.clip_mode = "one-sided") ∧
    (s.verbosity = none → v.verbosity = "low") ∧
    (s.reasoning_effort = none → v.reasoning_effort = "minimal") ∧
    (s.model = none → v.model = .str "gpt-4.1-mini") ∧
    (s.generate_answer = none → v.generate_answer = .bool false) := by
  unfold validate_settings at h
  cases hns : pyIntOf (mergeSettings s).n_samples with
  | error e => rw [hns] at h; simp at h
  | ok ns =>
  rw [hns] at h
  cases hmm : pyIntOf (mergeSettings s).m with
  | error e => rw [hmm] at h; simp at h
  | ok mm =>
  rw [hmm] at h
  cases htemp : pyFloatOf (mergeSettings s).temperature with
  | error e => rw [htemp] at h; simp at h
  | ok temp =>
  rw [htemp] at h
  cases hhs : pyFloatOf (mergeSettings s).h_star with
  | error e => rw [hhs] at h; simp at h
  | ok hs =>
  rw [hhs] at h
  cases hthr : pyFloatOf (mergeSettings s).isr_threshold with
  | error e => rw [hthr] at h; simp at h
  | ok thr =>
  rw [hthr] at h
  cases hmeb : pyFloatOf (mergeSettings s).margin_extra_bits with
  | error e => rw [hmeb] at h; simp at h
  | ok meb =>
  rw [hmeb] at h
  cases hbc : pyFloatOf (mergeSettings s).B_clip with
  | error e => rw [hbc] at h; simp at h
  | ok bc =>
  rw [hbc] at h
  simp only [] at h
  injection h with h
  subst h
  refine ⟨⟨le_max_left _ _, max_le (by decide) (min_le_right _ _)⟩,
    ⟨le_max_left _ _, max_le (by decide) (min_le_right _ _)⟩,
    ⟨le_max_left _ _, max_le (by decide) (min_le_right _ _)⟩,
    ⟨le_max_left _ _, max_le (by decide) (min_le_right _ _)⟩,
    ⟨le_max_left _ _, max_le (by decide) (min_le_right _ _)⟩,
    ⟨le_max_left _ _, max_le (by decide) (min_le_right _ _)⟩,
    ⟨le_max_left _ _, max_le (by decide) (min_le_right _ _)⟩,
    enumFix_mem _ _ _ (by decide), enumFix_mem _ _ _ (by decide),
    enumFix_mem _ _ _ (by decide), enumFix_mem _ _ _ (by decide),
    ?_, ?_, ?_, ?_, ?_, ?_, ?_, ?_, ?_, ?_, ?_, ?_, ?_, ?_, ?_, ?_, ?_⟩
  · intro t hst hni
    simp [mergeSettings, DEFAULT_SETTINGS, enumFix, hst, hni]
  · intro t hst hni
    simp [mergeSettings, DEFAULT_SETTINGS, enumFix, hst, hni]
  · intro t hst hni
    simp [mergeSettings, DEFAULT_SETTINGS, enumFix, hst, hni]
  · intro t hst hni
    simp [mergeSettings, DEFAULT_SETTINGS, enumFix, hst, hni]
  · intro h0
    rw [show (mergeSettings s).n_samples = JVal.num 7 by
      simp [mergeSettings, DEFAULT_SETTINGS, h0]] at hns
    rw [show pyIntOf (JVal.num 7) = Except.ok 7 from rfl] at hns
    injection hns with hns
    subst hns
    rfl
  · intro h0
    rw [show (mergeSettings s).m = JVal.num 6 by
      simp [mergeSettings, DEFAULT_SETTINGS, h0]] at hmm
    rw [show pyIntOf (JVal.num 6) = Except.ok 6 from rfl] at hmm
    injection hmm with hmm
    subst hmm
    rfl
  · intro h0
    rw [show (mergeSettings s).temperature = JVal.num (mkRat 3 10) by
      simp [mergeSettings, DEFAULT_SETTINGS, h0]] at htemp
    rw [show pyFloatOf (JVal.num (mkRat 3 10)) = Except.ok (mkRat 3 10) from rfl] at htemp
    injection htemp with htemp
    subst htemp
    rfl
  · intro h0
    rw [show (mergeSettings s).h_star = JVal.num (mkRat 1 20) by
      simp [mergeSettings, DEFAULT_SETTINGS, h0]] at hhs
    rw [show pyFloatOf (JVal.num (mkRat 1 20)) = Except.ok (mkRat 1 20) from rfl] at hhs
    injection hhs with hhs
    subst hhs
    rfl
  · intro h0
    rw [show (mergeSettings s).isr_threshold = JVal.num 1 by
      simp [mergeSettings, DEFAULT_SETTINGS, h0]] at hthr
    rw [show pyFloatOf (JVal.num 1) = Except.ok 1 from rfl] at hthr
    injection hthr with hthr
    subst hthr
    rfl
  · intro h0
    rw [show (mergeSettings s).margin_extra_bits = JVal.num (mkRat 1 5) by
      simp [mergeSettings, DEFAULT_SETTINGS, h0]] at hmeb
    rw [show pyFloatOf (JVal.num (mkRat 1 5)) = Except.ok (mkRat 1 5) from rfl] at hmeb
    injection hmeb with hmeb
    subst hmeb
    rfl
  · intro h0
    rw [show (mergeSettings s).B_clip = JVal.num 12 by
      simp [mergeSettings, DEFAULT_SETTINGS, h0]] at hbc
    rw [show pyFloatOf (JVal.num 12) = Except.ok 12 from rfl] at hbc
    injection hbc with hbc
    subst hbc
    rfl
  · intro h0
    simp [mergeSettings, DEFAULT_SETTINGS, enumFix, h0]
  · intro h0
    simp [mergeSettings, DEFAULT_SETTINGS, enumFix, h0]
  · intro h0
    simp [mergeSettings, DEFAULT_SETTINGS, enumFix, h0]
  · intro h0
    simp [mergeSettings, DEFAULT_SETTINGS, enumFix, h0]
  · intro h0
    simp [mergeSettings, DEFAULT_SETTINGS, h0]
  · intro h0
    simp [mergeSettings, DEFAULT_SETTINGS, h0]

/-- C1 witness: the empty settings mapping is accepted, and the clamp bounds
hold on its output. -/
theorem validate_settings_clamps_witness :
    validate_settings SettingsInput.empty = .ok defaultValidated ∧
    (1 ≤ defaultValidated.n_samples ∧ defaultValidated.n_samples ≤ 15) ∧
    (2 ≤ defaultValidated.m ∧ defaultValidated.m ≤ 12) :=
  ⟨rfl, (validate_settings_clamps SettingsInput.empty defaultValidated rfl).1,
    (validate_settings_clamps SettingsInput.empty defaultValidated rfl).2.1⟩

theorem answerStep_decision (settings : ValidatedSettings) (metric : Metric)
    (gen : Except ExnInfo (Option String)) (r : EvalResult) :
    (answerStep settings metric gen r).1.decision = r.decision ∧
    (answerStep settings metric gen r).1.decision_answer = r.decision_answer ∧
    (answerStep settings metric gen r).1.rationale = r.rationale ∧
    (answerStep settings metric gen r).1.metrics = r.metrics ∧
    (answerStep settings metric gen r).1.sla_certificate = r.sla_certificate := by
  unfold answerStep
  split
  · split
    · cases gen <;> exact ⟨rfl, rfl, rfl, rfl, rfl⟩
    · exact ⟨rfl, rfl, rfl, rfl, rfl⟩
  · exact ⟨rfl, rfl, rfl, rfl, rfl⟩

theorem certStep_fields (cert : Except ExnInfo JVal) (r : EvalResult) :
    (certStep cert r).decision = r.decision ∧
    (certStep cert r).decision_answer = r.decision_answer ∧
    (certStep cert r).rationale = r.rationale ∧
    (certStep cert r).metrics = r.metrics ∧
    (certStep cert r).answer = r.answer := by
  unfold certStep
  cases cert <;> exact ⟨rfl, rfl, rfl, rfl, rfl⟩

/-- Shape of a handler invocation on the success path: nonempty prompt, a
resolvable key, settings that validate, and a planner run that returns a
metric. -/
theorem evaluate_prompt_run_ok (env : String) (rd : RequestData)
    (run : Except ExnInfo Metric) (gen : Except ExnInfo (Option String))
    (cert : Except ExnInfo JVal) (settings : ValidatedSettings) (metric : Metric)
    (hp : ¬ pyStrip (rd.prompt.getD "") = "")
    (hk : ¬ pyOr (rd.api_key.getD "") env = "")
    (hv : validate_settings (rd.settings.getD SettingsInput.empty) = .ok settings)
    (hr : run = .ok metric) :
    evaluate_prompt env (some rd) run gen cert =
      ⟨successResponse
          (certStep cert (answerStep settings metric gen (buildResult metric)).1) settings,
        some (runArgsOf (pyStrip (rd.prompt.getD "")) settings),
        (answerStep settings metric gen (buildResult metric)).2,
        some (certArgsOf settings),
        some (pyOr (rd.api_key.getD "") env),
        pyOr (rd.api_key.getD "") env⟩ := by
  unfold evaluate_prompt
  simp only []
  rw [if_neg hp, if_neg hk, hv, hr]

/-- C2: on every successfully evaluated request the response's `decision` is
"ANSWER" exactly when the metric's `decision_answer` is true and "REFUSE"
otherwise, `decision_answer` equals the metric's, and the `metrics` object is
the six fields `delta_bar`, `b2t`, `isr`, `roh_bound`, `q_conservative`,
`q_avg` copied unchanged from the computed `Metric`. -/
theorem evaluate_decision_metrics (env : String) (rd : RequestData)
    (run : Except ExnInfo Metric) (gen : Except ExnInfo (Option String))
    (cert : Except ExnInfo JVal) (settings : ValidatedSettings) (metric : Metric)
    (hp : ¬ pyStrip (rd.prompt.getD "") = "")
    (hk : ¬ pyOr (rd.api_key.getD "") env = "")
    (hv : validate_settings (rd.settings.getD SettingsInput.empty) = .ok settings)
    (hr : run = .ok metric) :
    ∃ r, (evaluate_prompt env (some rd) run gen cert).response.result = some r ∧
      (r.decision = "ANSWER" ↔ metric.decision_answer = true) ∧
      (r.decision = "REFUSE" ↔ metric.decision_answer = false) ∧
      r.decision_answer = metric.decision_answer ∧
      r.metrics = ⟨metric.delta_bar, metric.b2t, metric.isr, metric.roh_bound,
        metric.q_conservative, metric.q_avg⟩ := by
  rw [evaluate_prompt_run_ok env rd run gen cert settings metric hp hk hv hr]
  obtain ⟨c1, c2, _, c4, _⟩ :=
    certStep_fields cert (answerStep settings metric gen (buildResult metric)).1
  obtain ⟨a1, a2, _, a4, _⟩ := answerStep_decision settings metric gen (buildResult metric)
  refine ⟨_, rfl, ?_, ?_, ?_, ?_⟩
  · rw [c1, a1]
    cases hd : metric.decision_answer <;> simp [buildResult, hd]
  · rw [c1, a1]
    cases hd : metric.decision_answer <;> simp [buildResult, hd]
  · rw [c2, a2]
    rfl
  · rw [c4, a4]
    rfl

/-- C2 witness: a concrete default request with an ANSWER metric. -/
theorem evaluate_decision_metrics_witness :
    ∃ r, (evaluate_prompt "" (some reqDefault) (.ok metricA) (.ok none) (.ok .null)).response.result
        = some r ∧
      (r.decision = "ANSWER" ↔ metricA.decision_answer = true) ∧
      (r.decision = "REFUSE" ↔ metricA.decision_answer = false) ∧
      r.decision_answer = metricA.decision_answer ∧
      r.metrics = ⟨metricA.delta_bar, metricA.b2t, metricA.isr, metricA.roh_bound,
        metricA.q_conservative, metricA.q_avg⟩ :=
  evaluate_decision_metrics "" reqDefault (.ok metricA) (.ok none) (.ok .null)
    defaultValidated metricA (by decide) (by decide) rfl rfl

theorem answerStep_gen_error (settings : ValidatedSettings) (metric : Metric)
    (e : ExnInfo) (r : EvalResult)
    (hg : truthy settings.generate_answer = true)
    (hd : metric.decision_answer = true) :
    (answerStep settings metric (.error e) r).1.answer =
      some ("Error generating answer: " ++ e.msg) := by
  simp [answerStep, hg, hd]

theorem answerStep_refused (settings : ValidatedSettings) (metric : Metric)
    (gen : Except ExnInfo (Option String)) (r : EvalResult)
    (hg : truthy settings.generate_answer = true)
    (hd : metric.decision_answer = false) :
    (answerStep settings metric gen r).1.answer =
      some "Request refused - insufficient information confidence" ∧
    (answerStep settings metric gen r).2 = false := by
  constructor <;> simp [answerStep, hg, hd]

theorem answerStep_skipped (settings : ValidatedSettings) (metric : Metric)
    (gen : Except ExnInfo (Option String)) (r : EvalResult)
    (hg : truthy settings.generate_answer = false) :
    (answerStep settings metric gen r).1 = r ∧
    (answerStep settings metric gen r).2 = false := by
  constructor <;> simp [answerStep, hg]

theorem answerStep_called (settings : ValidatedSettings) (metric : Metric)
    (gen : Except ExnInfo (Option String)) (r : EvalResult) :
    (answerStep settings metric gen r).2 =
      (truthy settings.generate_answer && metric.decision_answer) := by
  unfold answerStep
  split
  · split
    · cases gen <;> simp_all
    · simp_all
  · simp_all

/-- C3: when the backend call of the optional final-answer generation step
raises, the exception is not propagated: the `answer` field becomes an
error-describing string while the already-computed `decision`, `rationale`
and `metrics` fields are unchanged and the evaluation still reports
success. -/
theorem generation_error_inband (env : String) (rd : RequestData)
    (run : Except ExnInfo Metric) (cert : Except ExnInfo JVal)
    (settings : ValidatedSettings) (metric : Metric) (e : ExnInfo)
    (hp : ¬ pyStrip (rd.prompt.getD "") = "")
    (hk : ¬ pyOr (rd.api_key.getD "") env = "")
    (hv : validate_settings (rd.settings.getD SettingsInput.empty) = .ok settings)
    (hr : run = .ok metric)
    (hg : truthy settings.generate_answer = true)
    (hd : metric.decision_answer = true) :
    (evaluate_prompt env (some rd) run (.error e) cert).response.status = 200 ∧
    (evaluate_prompt env (some rd) run (.error e) cert).response.success = true ∧
    ∃ r, (evaluate_prompt env (some rd) run (.error e) cert).response.result = some r ∧
      r.answer = some ("Error generating answer: " ++ e.msg) ∧
      r.decision = (buildResult metric).decision ∧
      r.decision_answer = metric.decision_answer ∧
      r.rationale = metric.rationale ∧
      r.metrics = (buildResult metric).metrics := by
  rw [evaluate_prompt_run_ok env rd run (.error e) cert settings metric hp hk hv hr]
  obtain ⟨c1, c2, c3, c4, c5⟩ :=
    certStep_fields cert (answerStep settings metric (.error e) (buildResult metric)).1
  obtain ⟨a1, a2, a3, a4, _⟩ := answerStep_decision settings metric (.error e) (buildResult metric)
  refine ⟨rfl, rfl, _, rfl, ?_, ?_, ?_, ?_, ?_⟩
  · rw [c5, answerStep_gen_error settings metric e (buildResult metric) hg hd]
  · rw [c1, a1]
  · rw [c2, a2]
    rfl
  · rw [c3, a3]
    rfl
  · rw [c4, a4]

/-- C3 witness: a request with `generate_answer = true`, an ANSWER metric and
a failing generation call. -/
theorem generation_error_inband_witness :
    (evaluate_prompt "" (some reqGen) (.ok metricA)
        (.error ⟨"BackendError", "boom"⟩) (.ok .null)).response.status = 200 ∧
    ∃ r, (evaluate_prompt "" (some reqGen) (.ok metricA)
        (.error ⟨"BackendError", "boom"⟩) (.ok .null)).response.result = some r ∧
      r.answer = some ("Error generating answer: " ++ "boom") ∧
      r.decision = (buildResult metricA).decision ∧
      r.decision_answer = metricA.decision_answer ∧
      r.rationale = metricA.rationale ∧
      r.metrics = (buildResult metricA).metrics :=
  ⟨(generation_error_inband "" reqGen (.ok metricA) (.ok .null) genValidated metricA
      ⟨"BackendError", "boom"⟩ (by decide) (by decide) rfl rfl rfl rfl).1,
    (generation_error_inband "" reqGen (.ok metricA) (.ok .null) genValidated metricA
      ⟨"BackendError", "boom"⟩ (by decide) (by decide) rfl rfl rfl rfl).2.2⟩

/-- C4: when certificate construction raises, the failure is reported in-band
in the `sla_certificate` field as an error entry, and the per-item fields
already placed in the result (`decision`, `rationale`, `metrics`, `answer`)
are unchanged and still returned with a success response. -/
theorem certificate_error_inband (env : String) (rd : RequestData)
    (run : Except ExnInfo Metric) (gen : Except ExnInfo (Option String))
    (settings : ValidatedSettings) (metric : Metric) (e : ExnInfo)
    (hp : ¬ pyStrip (rd.prompt.getD "") = "")
    (hk : ¬ pyOr (rd.api_key.getD "") env = "")
    (hv : validate_settings (rd.settings.getD SettingsInput.empty) = .ok settings)
    (hr : run = .ok metric) :
    (evaluate_prompt env (some rd) run gen (.error e)).response.status = 200 ∧
    (evaluate_prompt env (some rd) run gen (.error e)).response.success = true ∧
    ∃ r, (evaluate_prompt env (some rd) run gen (.error e)).response.result = some r ∧
      r.sla_certificate =
        some (.certError ("Failed to generate certificate: " ++ e.msg)) ∧
      r.decision = (buildResult metric).decision ∧
      r.decision_answer = metric.decision_answer ∧
      r.rationale = metric.rationale ∧
      r.metrics = (buildResult metric).metrics ∧
      r.answer = (answerStep settings metric gen (buildResult metric)).1.answer := by
  rw [evaluate_prompt_run_ok env rd run gen (.error e) settings metric hp hk hv hr]
  obtain ⟨c1, c2, c3, c4, c5⟩ :=
    certStep_fields (.error e) (answerStep settings metric gen (buildResult metric)).1
  obtain ⟨a1, a2, a3, a4, _⟩ := answerStep_decision settings metric gen (buildResult metric)
  refine ⟨rfl, rfl, _, rfl, rfl, ?_, ?_, ?_, ?_, c5⟩
  · rw [c1, a1]
  · rw [c2, a2]
    rfl
  · rw [c3, a3]
    rfl
  · rw [c4, a4]

/-- C4 witness: a default request whose certificate construction fails. -/
theorem certificate_error_inband_witness :
    (evaluate_prompt "" (some reqDefault) (.ok metricA) (.ok none)
        (.error ⟨"InsufficientDataError", "empty batch"⟩)).response.status = 200 ∧
    ∃ r, (evaluate_prompt "" (some reqDefault) (.ok metricA) (.ok none)
        (.error ⟨"InsufficientDataError", "empty batch"⟩)).response.result = some r ∧
      r.sla_certificate =
        some (.certError ("Failed to generate certificate: " ++ "empty batch")) ∧
      r.decision = (buildResult metricA).decision ∧
      r.decision_answer = metricA.decision_answer ∧
      r.rationale = metricA.rationale ∧
      r.metrics = (buildResult metricA).metrics ∧
      r.answer = (answerStep defaultValidated metricA (.ok none) (buildResult metricA)).1.answer :=
  ⟨(certificate_error_inband "" reqDefault (.ok metricA) (.ok none) defaultValidated metricA
      ⟨"InsufficientDataError", "empty batch"⟩ (by decide) (by decide) rfl rfl).1,
    (certificate_error_inband "" reqDefault (.ok metricA) (.ok none) defaultValidated metricA
      ⟨"InsufficientDataError", "empty batch"⟩ (by decide) (by decide) rfl rfl).2.2⟩

/-- C6: the final-answer generation call is issued if and only if the
`generate_answer` setting is truthy and the metric's `decision_answer` is
true; when `generate_answer` is set but the decision is REFUSE, the answer
field is the fixed refusal string and no generation call is made (for every
possible generation outcome); when `generate_answer` is falsy the answer key
is never set. -/
theorem generation_call_iff (env : String) (rd : RequestData)
    (run : Except ExnInfo Metric) (gen : Except ExnInfo (Option String))
    (cert : Except ExnInfo JVal) (settings : ValidatedSettings) (metric : Metric)
    (hp : ¬ pyStrip (rd.prompt.getD "") = "")
    (hk : ¬ pyOr (rd.api_key.getD "") env = "")
    (hv : validate_settings (rd.settings.getD SettingsInput.empty) = .ok settings)
    (hr : run = .ok metric) :
    ((evaluate_prompt env (some rd) run gen cert).genCalled = true ↔
      (truthy settings.generate_answer = true ∧ metric.decision_answer = true)) ∧
    (truthy settings.generate_answer = true → metric.decision_answer = false →
      ((evaluate_prompt env (some rd) run gen cert).genCalled = false ∧
        ∃ r, (evaluate_prompt env (some rd) run gen cert).response.result = some r ∧
          r.answer = some "Request refused - insufficient information confidence")) ∧
    (truthy settings.generate_answer = false →
      ((evaluate_prompt env (some rd) run gen cert).genCalled = false ∧
        ∃ r, (evaluate_prompt env (some rd) run gen cert).response.result = some r ∧
          r.answer = none)) := by
  rw [evaluate_prompt_run_ok env rd run gen cert settings metric hp hk hv hr]
  refine ⟨?_, ?_, ?_⟩
  · rw [show (PipelineOut.mk
        (successResponse
          (certStep cert (answerStep settings metric gen (buildResult metric)).1) settings)
        (some (runArgsOf (pyStrip (rd.prompt.getD "")) settings))
        (answerStep settings metric gen (buildResult metric)).2
        (some (certArgsOf settings))
        (some (pyOr (rd.api_key.getD "") env))
        (pyOr (rd.api_key.getD "") env)).genCalled =
        (answerStep settings metric gen (buildResult metric)).2 from rfl]
    rw [answerStep_called settings metric gen (buildResult metric)]
    simp
  · intro hg hd
    obtain ⟨ha, hc⟩ := answerStep_refused settings metric gen (buildResult metric) hg hd
    obtain ⟨_, _, _, _, c5⟩ :=
      certStep_fields cert (answerStep settings metric gen (buildResult metric)).1
    exact ⟨hc, _, rfl, by rw [c5, ha]⟩
  · intro hg
    obtain ⟨ha, hc⟩ := answerStep_skipped settings metric gen (buildResult metric) hg
    obtain ⟨_, _, _, _, c5⟩ :=
      certStep_fields cert (answerStep settings metric gen (buildResult metric)).1
    refine ⟨hc, _, rfl, ?_⟩
    rw [c5, ha]
    rfl

/-- C6 witness: with `generate_answer = true` and a REFUSE metric, the call
is not issued and the fixed refusal string is returned; with an ANSWER
metric the call is issued. -/
theorem generation_call_iff_witness :
    ((evaluate_prompt "" (some reqGen) (.ok metricR) (.ok none) (.ok .null)).genCalled = false ∧
      ∃ r, (evaluate_prompt "" (some reqGen) (.ok metricR) (.ok none) (.ok .null)).response.result
          = some r ∧
        r.answer = some "Request refused - insufficient information confidence") ∧
    ((evaluate_prompt "" (some reqGen) (.ok metricA) (.ok none) (.ok .null)).genCalled = true ↔
      (truthy genValidated.generate_answer = true ∧ metricA.decision_answer = true)) :=
  ⟨(generation_call_iff "" reqGen (.ok metricR) (.ok none) (.ok .null) genValidated metricR
      (by decide) (by decide) rfl rfl).2.1 rfl rfl,
    (generation_call_iff "" reqGen (.ok metricA) (.ok none) (.ok .null) genValidated metricA
      (by decide) (by decide) rfl rfl).1⟩

/-- C5 counterexample: a request with `m = 1` does NOT fail with a
`PolicyError` before backend sampling — `validate_settings` clamps `m` up to
2, the planner run is issued (with `m = 2`), and the request succeeds. -/
theorem m_one_counterexample :
    (evaluate_prompt "" (some reqMOne) (.ok metricA) (.ok none) (.ok .null)).response.status
        = 200 ∧
    (evaluate_prompt "" (some reqMOne) (.ok metricA) (.ok none) (.ok .null)).response.success
        = true ∧
    (evaluate_prompt "" (some reqMOne) (.ok metricA) (.ok none) (.ok .null)).runArgs =
      some ⟨"Q", 7, 2, "closed_book", mkRat 3 10, mkRat 1 20, 1, mkRat 1 5, 12, "one-sided"⟩ :=
  ⟨rfl, rfl, rfl⟩

/-- C5 (amended): a requested `m` below 2 never reaches the engine — the
validated settings always satisfy `m ≥ 2` — and an empty prompt is rejected
before any backend sampling call is issued, though with the HTTP 500
`NameError` response rather than a `PolicyError`. -/
theorem m_clamped_empty_prompt_rejected (s : SettingsInput) (v : ValidatedSettings)
    (hv : validate_settings s = .ok v) :
    2 ≤ v.m ∧
    ∀ (env : String) (rd : RequestData) (run : Except ExnInfo Metric)
      (gen : Except ExnInfo (Option String)) (cert : Except ExnInfo JVal),
      pyStrip (rd.prompt.getD "") = "" →
        (evaluate_prompt env (some rd) run gen cert).runArgs = none ∧
        (evaluate_prompt env (some rd) run gen cert).response.status = 500 := by
  constructor
  · unfold validate_settings at hv
    iterate 7 (split at hv <;> try exact Except.noConfusion hv)
    injection hv with hv
    rw [← hv]
    exact le_max_left _ _
  · intro env rd run gen cert hp
    unfold evaluate_prompt
    simp only []
    rw [if_pos hp]
    exact ⟨rfl, rfl⟩

/-- C5 witness: the `m = 1` overrides validate to `m = 2`, and a
whitespace-only prompt is rejected with no planner run. -/
theorem m_clamped_empty_prompt_rejected_witness :
    2 ≤ ({ defaultValidated with m := 2 } : ValidatedSettings).m ∧
    (evaluate_prompt "" (some ⟨some " ", none, none⟩) (.ok metricA) (.ok none)
        (.ok .null)).runArgs = none :=
  ⟨(m_clamped_empty_prompt_rejected { m := some (.num 1) }
      { defaultValidated with m := 2 } rfl).1,
    ((m_clamped_empty_prompt_rejected { m := some (.num 1) }
      { defaultValidated with m := 2 } rfl).2 "" ⟨some " ", none, none⟩
      (.ok metricA) (.ok none) (.ok .null) rfl).1⟩

/-- C7: with no settings overrides the configuration used for evaluation has
`h_star = 0.05`, `isr_threshold = 1.0`, `margin_extra_bits = 0.2`,
`B_clip = 12.0` and `clip_mode = "one-sided"`, and the certificate is built
at `confidence_1_minus_alpha = 0.95`. -/
theorem default_config_and_confidence :
    validate_settings SettingsInput.empty = .ok defaultValidated ∧
    defaultValidated.h_star = mkRat 1 20 ∧
    defaultValidated.isr_threshold = 1 ∧
    defaultValidated.margin_extra_bits = mkRat 1 5 ∧
    defaultValidated.B_clip = 12 ∧
    defaultValidated.clip_mode = "one-sided" ∧
    (evaluate_prompt "" (some reqDefault) (.ok metricA) (.ok none) (.ok .null)).certArgs =
      some ⟨mkRat 1 20, 1, mkRat 1 5, .str "gpt-4.1-mini", mkRat 19 20⟩ ∧
    (certArgsOf defaultValidated).confidence_1_minus_alpha = mkRat 19 20 :=
  ⟨rfl, rfl, rfl, rfl, rfl, rfl, rfl, rfl⟩

/-- C8 counterexample: the credential of one request IS observable by a
later request.  Request A supplies `sk-from-A`; it is written into the
process environment.  Request B supplies no key: run after A it evaluates
using A's credential (HTTP 200), run on a fresh environment it fails
(HTTP 500).  Outcomes of B depend on A's credential. -/
theorem credential_shared_counterexample :
    (evaluate_prompt "" (some reqWithKey) (.ok metricA) (.ok none) (.ok .null)).envAfter
        = "sk-from-A" ∧
    (evaluate_prompt
        (evaluate_prompt "" (some reqWithKey) (.ok metricA) (.ok none) (.ok .null)).envAfter
        (some reqNoKey) (.ok metricA) (.ok none) (.ok .null)).keyUsed = some "sk-from-A" ∧
    (evaluate_prompt
        (evaluate_prompt "" (some reqWithKey) (.ok metricA) (.ok none) (.ok .null)).envAfter
        (some reqNoKey) (.ok metricA) (.ok none) (.ok .null)).response.status = 200 ∧
    (evaluate_prompt "" (some reqNoKey) (.ok metricA) (.ok none) (.ok .null)).response.status
        = 500 ∧
    (evaluate_prompt "" (some reqNoKey) (.ok metricA) (.ok none) (.ok .null)).keyUsed = none :=
  ⟨rfl, rfl, rfl, rfl, rfl⟩

/-- C8 (amended): the handler passes the credential through ambient
process-wide state — on every evaluated request the resolved key (the
request's own, or failing that whatever an earlier request left in the
environment) is written into `OPENAI_API_KEY` and is the key the backend
uses, so evaluations are not independent across requests. -/
theorem credential_stored_in_env (env : String) (rd : RequestData)
    (run : Except ExnInfo Metric) (gen : Except ExnInfo (Option String))
    (cert : Except ExnInfo JVal) (settings : ValidatedSettings) (metric : Metric)
    (hp : ¬ pyStrip (rd.prompt.getD "") = "")
    (hk : ¬ pyOr (rd.api_key.getD "") env = "")
    (hv : validate_settings (rd.settings.getD SettingsInput.empty) = .ok settings)
    (hr : run = .ok metric) :
    (evaluate_prompt env (some rd) run gen cert).envAfter = pyOr (rd.api_key.getD "") env ∧
    (evaluate_prompt env (some rd) run gen cert).keyUsed =
      some (pyOr (rd.api_key.getD "") env) := by
  rw [evaluate_prompt_run_ok env rd run gen cert settings metric hp hk hv hr]
  exact ⟨rfl, rfl⟩

/-- C8 witness: a keyless request evaluated in an environment already holding
another request's credential stores and uses that credential. -/
theorem credential_stored_in_env_witness :
    (evaluate_prompt "sk-from-A" (some reqNoKey) (.ok metricA) (.ok none)
        (.ok .null)).envAfter = pyOr (reqNoKey.api_key.getD "") "sk-from-A" ∧
    (evaluate_prompt "sk-from-A" (some reqNoKey) (.ok metricA) (.ok none)
        (.ok .null)).keyUsed = some (pyOr (reqNoKey.api_key.getD "") "sk-from-A") :=
  credential_stored_in_env "sk-from-A" reqNoKey (.ok metricA) (.ok none) (.ok .null)
    defaultValidated metricA (by decide) (by decide) rfl rfl

/-- C9: each of the three early validation-error paths (falsy body, empty
prompt, missing API key) evaluates the undefined name `false` while building
the intended 400 response, so it raises `NameError`, is caught by the
generic handler, and the endpoint returns HTTP 500 with the undefined-name
message — never the documented 400. -/
theorem early_paths_name_error (env : String) (run : Except ExnInfo Metric)
    (gen : Except ExnInfo (Option String)) (cert : Except ExnInfo JVal) :
    (evaluate_prompt env none run gen cert).response = errorResponse nameErrorFalse ∧
    (∀ rd : RequestData, pyStrip (rd.prompt.getD "") = "" →
      (evaluate_prompt env (some rd) run gen cert).response = errorResponse nameErrorFalse) ∧
    (∀ rd : RequestData, ¬ pyStrip (rd.prompt.getD "") = "" →
      pyOr (rd.api_key.getD "") env = "" →
      (evaluate_prompt env (some rd) run gen cert).response = errorResponse nameErrorFalse) ∧
    (errorResponse nameErrorFalse).status = 500 ∧
    (errorResponse nameErrorFalse).status ≠ 400 ∧
    (errorResponse nameErrorFalse).errType = some "NameError" ∧
    (errorResponse nameErrorFalse).error = some "name 'false' is not defined" := by
  refine ⟨rfl, ?_, ?_, rfl, by decide, rfl, rfl⟩
  · intro rd hp
    unfold evaluate_prompt
    simp only []
    rw [if_pos hp]
  · intro rd hp hk
    unfold evaluate_prompt
    simp only []
    rw [if_neg hp, if_pos hk]

/-- C9 witness: the three early paths at concrete requests. -/
theorem early_paths_name_error_witness :
    (evaluate_prompt "" none (.ok metricA) (.ok none) (.ok .null)).response
        = errorResponse nameErrorFalse ∧
    (evaluate_prompt "" (some ⟨some "  ", some "sk-test", none⟩) (.ok metricA) (.ok none)
        (.ok .null)).response = errorResponse nameErrorFalse ∧
    (evaluate_prompt "" (some ⟨some "Q", none, none⟩) (.ok metricA) (.ok none)
        (.ok .null)).response = errorResponse nameErrorFalse :=
  ⟨(early_paths_name_error "" (.ok metricA) (.ok none) (.ok .null)).1,
    (early_paths_name_error "" (.ok metricA) (.ok none) (.ok .null)).2.1
      ⟨some "  ", some "sk-test", none⟩ rfl,
    (early_paths_name_error "" (.ok metricA) (.ok none) (.ok .null)).2.2.1
      ⟨some "Q", none, none⟩ (by decide) rfl⟩

/-- C10: `validate_settings` is not total over arbitrary JSON settings
values: `n_samples = "abc"` raises `ValueError` and `n_samples = null`
raises `TypeError` instead of clamping or defaulting, and the request fails
with a generic 500 error before any backend call. -/
theorem validate_settings_not_total :
    validate_settings badSettings =
      .error ⟨"ValueError", "invalid literal for int() with base 10: 'abc'"⟩ ∧
    validate_settings badSettingsNull =
      .error ⟨"TypeError",
        "int() argument must be a string, a bytes-like object or a real number, not 'NoneType'"⟩ ∧
    (evaluate_prompt "" (some reqBad) (.ok metricA) (.ok none) (.ok .null)).response.status
        = 500 ∧
    (evaluate_prompt "" (some reqBad) (.ok metricA) (.ok none) (.ok .null)).response.success
        = false ∧
    (evaluate_prompt "" (some reqBad) (.ok metricA) (.ok none) (.ok .null)).response.errType
        = some "ValueError" ∧
    (evaluate_prompt "" (some reqBad) (.ok metricA) (.ok none) (.ok .null)).runArgs = none :=
  ⟨rfl, rfl, rfl, rfl, rfl, rfl⟩

end RestApi
